import Mathlib

/-!
# Verification of the spectrum-core compound-proxy fragment

The repository fragment contains the test suite of the `compound_proxy`
contract (`src/contracts/compound_proxy/src/test.rs`) and the mock querier of
the `fees_collector` contract (`src/contracts/fees_collector/src/mock_querier.rs`).
The contract implementation itself (`contract.rs` of `compound_proxy`) is not
part of the fragment, so the operations it provides — instantiation, the
`Compound` orchestrator, the `OptimalSwap` solver callback and the
`ProvideLiquidity` callback — are modelled here from the specification, and
checked against the concrete expectations recorded in the test suite.

The mock querier's pair lookup (`pair_key`, `set_pair`/`get_pair`) is real code
of the fragment and is embedded directly.
-/

/-! ## Integer square root

A fuel-based Newton iteration, definitionally equal (proved below) to
`Nat.sqrt`, used so that concrete instances of the solver reduce inside the
kernel. -/

/-- Fuel-based Newton iteration computing an integer square root.  One step maps
`guess` to `(guess + n / guess) / 2` and stops as soon as the guess no longer
decreases; the fuel only bounds the number of steps. -/
def sqrtIter : Nat → Nat → Nat → Nat
  | 0, _, guess => guess
  | fuel + 1, n, guess =>
    if (guess + n / guess) / 2 < guess then sqrtIter fuel n ((guess + n / guess) / 2) else guess

/-- Integer square root by Newton iteration; agrees with `Nat.sqrt`. -/
def isqrt (n : Nat) : Nat := if n ≤ 1 then n else sqrtIter n n (n / 2)

theorem sqrtIter_eq (fuel guess n : Nat) (h : guess ≤ fuel) :
    sqrtIter fuel n guess = Nat.sqrt.iter n guess := by
  induction fuel generalizing guess with
  | zero =>
    interval_cases guess
    rw [sqrtIter, Nat.sqrt.iter]
    simp
  | succ f ih =>
    rw [sqrtIter, Nat.sqrt.iter.eq_def]
    show (if (guess + n / guess) / 2 < guess then sqrtIter f n ((guess + n / guess) / 2) else guess)
        = if (guess + n / guess) / 2 < guess then Nat.sqrt.iter n ((guess + n / guess) / 2)
          else guess
    by_cases hlt : (guess + n / guess) / 2 < guess
    · rw [if_pos hlt, if_pos hlt]
      exact ih _ (by omega)
    · rw [if_neg hlt, if_neg hlt]

theorem isqrt_eq (n : Nat) : isqrt n = Nat.sqrt n := by
  rw [isqrt, Nat.sqrt]
  split
  · rfl
  · exact sqrtIter_eq n (n / 2) n (by omega)

/-! ## The optimal-swap solver

Modelled from the spec: `contract.rs` of `compound_proxy` (the `optimal_swap`
callback and its swap-size computation) is not part of the fragment.  Per
spec §4.2 the solver reads reserves `(r0, r1)` of the two pool assets and held
balances `(b0, b1)`, and computes the swap size `s` and direction such that
after a constant-product swap of `s` units, with the commission
`fee/10000` deducted from the output, the remaining balances are proportional
to the post-swap reserves.  Requiring
`(b0 - s) / (b1 + out(s)) = (r0 + s) / (r1 - out(s))` with
`out(s) = r1*s*(10000-fee) / ((r0+s)*10000)` yields, after clearing
denominators, the quadratic `alpha*s^2 + beta*s - gamma = 0` in the
coefficients below (scaled by the basis-point denominator 10000).  The
implementation solves it in integer arithmetic, rounds the root down, and
clamps to the available source balance (spec §4.2 "Failure").  The constants
reproduce the concrete swap size 500626 recorded in the `optimal_swap` test. -/

/-- Quadratic leading coefficient `10000 * (r1 + b1)` of the balancing
equation, for a swap of asset 0 into asset 1. -/
def swapAlpha (b1 r1 : Nat) : Int := 10000 * ((r1 : Int) + (b1 : Int))

/-- Quadratic linear coefficient `r0*r1*(20000-fee) + 2*b1*r0*10000 - b0*r1*fee`
of the balancing equation. -/
def swapBeta (b0 b1 r0 r1 fee : Nat) : Int :=
  (r0 : Int) * (r1 : Int) * (20000 - (fee : Int)) + 2 * (b1 : Int) * (r0 : Int) * 10000
    - (b0 : Int) * (r1 : Int) * (fee : Int)

/-- Constant term `10000 * r0 * (b0*r1 - b1*r0)` of the balancing equation;
positive exactly when asset 0 is the excess asset. -/
def swapGamma (b0 b1 r0 r1 : Nat) : Int :=
  10000 * (r0 : Int) * ((b0 : Int) * (r1 : Int) - (b1 : Int) * (r0 : Int))

/-- Value of the quadratic `alpha*t^2 + beta*t` at `t`; a swap of `t` units
does not overshoot the pool's balance point exactly when this is at most
`swapGamma`. -/
def swapQuad (b0 b1 r0 r1 fee : Nat) (t : Int) : Int :=
  swapAlpha b1 r1 * t ^ 2 + swapBeta b0 b1 r0 r1 fee * t

/-- Modelled from the spec: swap size balancing the held amounts against the
pool, for a swap of asset 0 (in excess) into asset 1.  The positive root of the
balancing quadratic is computed with the integer square root, rounded down, and
clamped to the available balance `b0`. -/
def get_swap_amount (b0 b1 r0 r1 fee : Nat) : Nat :=
  min (((isqrt (swapBeta b0 b1 r0 r1 fee ^ 2
          + 4 * swapAlpha b1 r1 * swapGamma b0 b1 r0 r1).toNat : Int)
        - swapBeta b0 b1 r0 r1 fee) / (2 * swapAlpha b1 r1)).toNat b0

/-- Modelled from the spec: fee-adjusted constant-product output of swapping
`s` units into a pool with source reserve `rin` and target reserve `rout`,
with the fee deducted from the output and the result rounded down. -/
def swap_output (rin rout s fee : Nat) : Nat :=
  rout * s * (10000 - fee) / ((rin + s) * 10000)

/-- Direction of the balancing swap: asset 0 into asset 1, or the reverse. -/
inductive SwapDir where
  | zeroToOne
  | oneToZero
deriving DecidableEq

/-- Modelled from the spec: the full solver.  Short-circuits to no swap when a
reserve is zero, picks the excess side by comparing `b0*r1` with `b1*r0`, and
skips the external call when the computed size is zero. -/
def optimal_swap_amount (r0 r1 b0 b1 fee : Nat) : Option (SwapDir × Nat) :=
  if r0 = 0 ∨ r1 = 0 then none
  else if b1 * r0 < b0 * r1 then
    let s := get_swap_amount b0 b1 r0 r1 fee
    if s = 0 then none else some (SwapDir.zeroToOne, s)
  else if b0 * r1 < b1 * r0 then
    let s := get_swap_amount b1 b0 r1 r0 fee
    if s = 0 then none else some (SwapDir.oneToZero, s)
  else none

/-- Modelled from the spec: virtual application of the solver's swap to the
pool reserves and held balances, using the fee-adjusted constant-product
output. -/
def apply_optimal_swap (r0 r1 b0 b1 fee : Nat) : Nat × Nat × Nat × Nat :=
  match optimal_swap_amount r0 r1 b0 b1 fee with
  | none => (r0, r1, b0, b1)
  | some (SwapDir.zeroToOne, s) =>
    let out := swap_output r0 r1 s fee
    (r0 + s, r1 - out, b0 - s, b1 + out)
  | some (SwapDir.oneToZero, s) =>
    let out := swap_output r1 r0 s fee
    (r0 - out, r1 + s, b0 + out, b1 - s)

/-- Modelled from the spec: re-running the solver on the state produced by
virtually applying its own swap. -/
def rerun_optimal_swap (r0 r1 b0 b1 fee : Nat) : Option (SwapDir × Nat) :=
  match apply_optimal_swap r0 r1 b0 b1 fee with
  | (r0x, r1x, b0x, b1x) => optimal_swap_amount r0x r1x b0x b1x fee

/-! ## Contract data model

Modelled from the spec and the fixtures of `test.rs`: asset identities, the
configuration produced by instantiation, the callback and execute messages,
the error taxonomy, and the instructions a step emits. -/

/-- Asset identity: a cw20 token contract or a native denomination
(`astroport::asset::AssetInfo`). -/
inductive AssetInfo where
  | token (contract_addr : String)
  | native_token (denom : String)
deriving DecidableEq

/-- Byte key of an asset identity, as `AssetInfo::as_bytes` in the source:
the token contract address or the native denomination.  UTF-8 byte order
coincides with the codepoint order used by `String` comparison. -/
def AssetInfo.as_bytes : AssetInfo → String
  | AssetInfo.token c => c
  | AssetInfo.native_token d => d

/-- Callback messages of the compound proxy (`spectrum::compound_proxy::CallbackMsg`). -/
inductive CallbackMsg where
  | optimal_swap
  | provide_liquidity (receiver : String)
deriving DecidableEq

/-- Execute messages of the compound proxy (`spectrum::compound_proxy::ExecuteMsg`). -/
inductive ExecuteMsg where
  | compound (rewards : List (AssetInfo × Nat)) (toAddr : Option String)
  | callback (msg : CallbackMsg)
deriving DecidableEq

/-- Error taxonomy of the contract (spec §7). -/
inductive ContractError where
  | unauthorized
  | no_pair_proxy (asset : AssetInfo)
deriving DecidableEq

-- Decidable equality of contract results, used to evaluate concrete scenarios.
deriving instance DecidableEq for Except

/-- Instructions emitted by a step: self-addressed callbacks, swap messages to
a pool (a cw20 `Send` for a token leg, a funds-attached swap for a native leg),
a cw20 allowance grant, and the pool deposit message. -/
inductive Instr where
  | callback (contract_addr : String) (msg : CallbackMsg)
  | swap_token (token_addr pool : String) (amount : Nat)
  | swap_native (pool denom : String) (amount : Nat)
  | increase_allowance (token_addr spender : String) (amount : Nat) (expire_height : Nat)
  | provide_liquidity_msg (pool : String) (amount_token amount_native : Nat)
      (slippage_bps : Nat) (receiver : String) (funds : List (String × Nat))
deriving DecidableEq

/-- Classifies the pool-directed swap and deposit instructions (self-addressed
callbacks are follow-up operations, not swap or deposit instructions). -/
def Instr.is_swap_or_deposit : Instr → Bool
  | Instr.swap_token _ _ _ => true
  | Instr.swap_native _ _ _ => true
  | Instr.provide_liquidity_msg _ _ _ _ _ _ => true
  | _ => false

/-- Contract configuration, as fixed by instantiation.  The target pool's two
assets are the cw20 token `token_contract` (asset 0) and the native
denomination `native_denom` (asset 1), matching the mock pair
`[Token "token", NativeToken "uluna"]` of the test fixture. -/
structure Config where
  pair_contract : String
  token_contract : String
  native_denom : String
  commission_bps : Nat
  slippage_bps : Nat
deriving DecidableEq

/-- Chain state read by the callbacks: pool reserves of the two assets,
contract-held balances of the two assets, and the current block height. -/
structure ChainState where
  reserve_token : Nat
  reserve_native : Nat
  balance_token : Nat
  balance_native : Nat
  height : Nat
deriving DecidableEq

/-- Modelled from the spec: the `OptimalSwap` callback body.  Runs the solver
on fresh reserves and balances and emits at most one swap instruction to the
main pool, in the solved direction. -/
def optimal_swap_step (cfg : Config) (st : ChainState) : List Instr :=
  match optimal_swap_amount st.reserve_token st.reserve_native
      st.balance_token st.balance_native cfg.commission_bps with
  | none => []
  | some (SwapDir.zeroToOne, s) => [Instr.swap_token cfg.token_contract cfg.pair_contract s]
  | some (SwapDir.oneToZero, s) => [Instr.swap_native cfg.pair_contract cfg.native_denom s]

/-- Modelled from the spec: the `ProvideLiquidity` callback body.  Grants the
pool a spend allowance for the exact held token amount, expiring at the next
block height, then emits the deposit carrying both asset amounts, the native
leg as attached funds, the slippage bound, and the receiver. -/
def provide_liquidity_step (cfg : Config) (st : ChainState) (receiver : String) : List Instr :=
  [Instr.increase_allowance cfg.token_contract cfg.pair_contract
      st.balance_token (st.height + 1),
   Instr.provide_liquidity_msg cfg.pair_contract st.balance_token st.balance_native
      cfg.slippage_bps receiver [(cfg.native_denom, st.balance_native)]]

/-! ## Pair-proxy registry -/

/-- Byte-order comparison of two keys, as the storage map compares raw key
bytes (UTF-8 byte order coincides with codepoint order). -/
def bytes_lt : List Char → List Char → Bool
  | _, [] => false
  | [], _ :: _ => true
  | c :: cs, d :: ds =>
    if c.toNat < d.toNat then true
    else if d.toNat < c.toNat then false
    else bytes_lt cs ds

/-- Key order of the registry storage map. -/
def key_lt (a b : String) : Bool := bytes_lt a.data b.data

/-- Insertion into the pair-proxy registry, kept as an association list sorted
ascending by key, mirroring the ascending range iteration of the storage map
in the `proper_initialization` test. -/
def registry_insert : List (String × String) → String → String → List (String × String)
  | [], k, v => [(k, v)]
  | (k0, v0) :: rest, k, v =>
    if key_lt k k0 then (k, v) :: (k0, v0) :: rest
    else if k = k0 then (k, v) :: rest
    else (k0, v0) :: registry_insert rest k v

/-- Modelled from the spec: instantiation stores each pair-proxy entry keyed by
the asset identity. -/
def instantiate_pair_proxies (entries : List (AssetInfo × String)) : List (String × String) :=
  entries.foldl (fun acc e => registry_insert acc e.1.as_bytes e.2) []

/-- Registry lookup by asset-identity key. -/
def registry_lookup : List (String × String) → String → Option String
  | [], _ => none
  | (k0, v0) :: rest, k => if k = k0 then some v0 else registry_lookup rest k

/-! ## Compound orchestrator -/

/-- Whether a reward asset is one of the two target-pool assets. -/
def is_pool_asset (cfg : Config) (info : AssetInfo) : Bool :=
  info = AssetInfo.token cfg.token_contract ∨ info = AssetInfo.native_token cfg.native_denom

/-- Proxy swap instruction converting a reward asset via an alternate pool. -/
def proxy_swap_instr (proxy : String) (info : AssetInfo) (amount : Nat) : Instr :=
  match info with
  | AssetInfo.token c => Instr.swap_token c proxy amount
  | AssetInfo.native_token d => Instr.swap_native proxy d amount

/-- Modelled from the spec: reward conversion loop of `Compound` (§4.1).
Zero-amount entries are no-ops; a non-pool asset is routed through its pair
proxy and fails with `no_pair_proxy` when no mapping exists. -/
def convert_rewards (cfg : Config) (registry : List (String × String)) :
    List (AssetInfo × Nat) → Except ContractError (List Instr)
  | [] => Except.ok []
  | (info, amount) :: rest =>
    match convert_rewards cfg registry rest with
    | Except.error e => Except.error e
    | Except.ok tail =>
      if amount = 0 then Except.ok tail
      else if is_pool_asset cfg info then Except.ok tail
      else
        match registry_lookup registry info.as_bytes with
        | some proxy => Except.ok (proxy_swap_instr proxy info amount :: tail)
        | none => Except.error (ContractError.no_pair_proxy info)

/-- Modelled from the spec: the `Compound` entry point.  Converts the rewards,
then appends the two self-addressed follow-up operations, `OptimalSwap` first,
then `ProvideLiquidity` with the receiver defaulting to the invoking caller. -/
def compound (cfg : Config) (registry : List (String × String))
    (contract_addr sender : String) (rewards : List (AssetInfo × Nat))
    (toAddr : Option String) : Except ContractError (List Instr) :=
  match convert_rewards cfg registry rewards with
  | Except.error e => Except.error e
  | Except.ok convs =>
    Except.ok (convs ++
      [Instr.callback contract_addr CallbackMsg.optimal_swap,
       Instr.callback contract_addr (CallbackMsg.provide_liquidity (toAddr.getD sender))])

/-- Modelled from the spec: the execute dispatch.  `Compound` is open;
callbacks are accepted only when the invoking identity equals the contract's
own identity, otherwise they fail with `unauthorized`. -/
def execute (cfg : Config) (registry : List (String × String))
    (contract_addr sender : String) (st : ChainState) :
    ExecuteMsg → Except ContractError (List Instr)
  | ExecuteMsg.compound rewards toAddr => compound cfg registry contract_addr sender rewards toAddr
  | ExecuteMsg.callback cb =>
    if sender = contract_addr then
      match cb with
      | CallbackMsg.optimal_swap => Except.ok (optimal_swap_step cfg st)
      | CallbackMsg.provide_liquidity receiver =>
        Except.ok (provide_liquidity_step cfg st receiver)
    else Except.error ContractError.unauthorized

/-- Configuration of the test fixtures: pool "pair_contract" over the cw20
token "token" and the native denomination "uluna", 30 bps commission, 1 %
(100 bps) slippage tolerance. -/
def testConfig : Config :=
  { pair_contract := "pair_contract", token_contract := "token",
    native_denom := "uluna", commission_bps := 30, slippage_bps := 100 }

/-- The mock environment's contract address (`MOCK_CONTRACT_ADDR`). -/
def mockContractAddr : String := "cosmos2contract"

/-! ## Mock querier pair lookup (`fees_collector/src/mock_querier.rs`) -/

/-- Pair metadata stored by the mock querier (`astroport::asset::PairInfo`,
restricted to the fields the lookup claims need). -/
structure PairInfo where
  contract_addr : String
  liquidity_token : String
deriving DecidableEq

/-- Embedding of `pair_key`: sorts the two asset identities by byte order
(the stable two-element sort swaps exactly when the first key is the greater)
and concatenates the byte keys. -/
def pair_key (a b : AssetInfo) : String :=
  if b.as_bytes < a.as_bytes then b.as_bytes ++ a.as_bytes
  else a.as_bytes ++ b.as_bytes

/-- The mock querier's pair table, as the lookup function of its hash map. -/
def PairTable := String → Option PairInfo

/-- Embedding of `WasmMockQuerier::set_pair`: stores the pair info under the
`pair_key` of the two asset identities. -/
def set_pair (m : PairTable) (a b : AssetInfo) (p : PairInfo) : PairTable :=
  fun k => if k = pair_key a b then some p else m k

/-- Embedding of `WasmMockQuerier::get_pair`, the handler of the `Pair`
query: looks up the `pair_key` of the two asset identities. -/
def get_pair (m : PairTable) (a b : AssetInfo) : Option PairInfo :=
  m (pair_key a b)

/-! ## Claim theorems -/

/-- Claim C1, counterexample: with the claim's stated inputs — reserves
1,000,000,000 / 1,000,000,000, held balances of 1,000,000 token units and
1,000,000,000 native units, 30 bps fee — the OptimalSwap step does swap the
native asset into the token asset, but of size 414,385,317, not 500,626; the
single emitted instruction therefore differs from the claimed one.  (The test
fixture behind the claim gives the contract 1,000,000,000 native units only in
the pool's account, not in the contract's own balance.) -/
theorem c1_counterexample :
    execute testConfig [] mockContractAddr mockContractAddr
      ⟨1000000000, 1000000000, 1000000, 1000000000, 12345⟩
      (ExecuteMsg.callback CallbackMsg.optimal_swap)
      = Except.ok [Instr.swap_native "pair_contract" "uluna" 414385317] ∧
    ¬ execute testConfig [] mockContractAddr mockContractAddr
      ⟨1000000000, 1000000000, 1000000, 1000000000, 12345⟩
      (ExecuteMsg.callback CallbackMsg.optimal_swap)
      = Except.ok [Instr.swap_native "pair_contract" "uluna" 500626] := by
  constructor
  · decide
  · decide

/-- Claim C1 (amended): with pool reserves of 1,000,000,000 units of each
asset, held balances of 1,000,000 token units and 0 native units, and a 30 bps
fee — the state of the `optimal_swap` test — the OptimalSwap step selects a
swap of the token asset into the native asset of size 500,626 units, emitted
as exactly one swap instruction to the main pool. -/
theorem c1_optimal_swap_test_scenario :
    execute testConfig [] mockContractAddr mockContractAddr
      ⟨1000000000, 1000000000, 1000000, 0, 12345⟩
      (ExecuteMsg.callback CallbackMsg.optimal_swap)
      = Except.ok [Instr.swap_token "token" "pair_contract" 500626] := by
  decide

set_option maxHeartbeats 1600000 in
/-- Bracketing of the integer root extracted from the balancing quadratic
`al*t^2 + be*t = ga` with `al > 0`, `ga > 0`: the computed value `s0` is
nonnegative, every `0 ≤ t ≤ s0` satisfies `al*t^2 + be*t ≤ ga`, and every
`t > s0` satisfies `al*t^2 + be*t > ga`; that is, `s0` is exactly the floor of
the positive real root. -/
theorem quad_root_spec (al be ga : Int) (hal : 0 < al) (hga : 0 < ga) :
    0 ≤ ((isqrt (be ^ 2 + 4 * al * ga).toNat : Int) - be) / (2 * al) ∧
    (∀ t : Int, 0 ≤ t → t ≤ ((isqrt (be ^ 2 + 4 * al * ga).toNat : Int) - be) / (2 * al) →
      al * t ^ 2 + be * t ≤ ga) ∧
    (∀ t : Int, ((isqrt (be ^ 2 + 4 * al * ga).toNat : Int) - be) / (2 * al) < t →
      ga < al * t ^ 2 + be * t) := by
  set d : Int := be ^ 2 + 4 * al * ga with hd_def
  have hd : 0 ≤ d := by nlinarith [sq_nonneg be]
  have htn : ((d.toNat : Int)) = d := Int.toNat_of_nonneg hd
  set rt : Int := (isqrt d.toNat : Int) with hrt_def
  have hrt_nn : 0 ≤ rt := Int.natCast_nonneg _
  have hrt2 : rt ^ 2 ≤ d := by
    have h := Nat.sqrt_le' d.toNat
    calc rt ^ 2 = ((Nat.sqrt d.toNat ^ 2 : Nat) : Int) := by
          rw [hrt_def, isqrt_eq]; push_cast; ring
    _ ≤ ((d.toNat : Nat) : Int) := by exact_mod_cast h
    _ = d := htn
  have hrt3 : d < (rt + 1) ^ 2 := by
    have h := Nat.lt_succ_sqrt' d.toNat
    calc d = ((d.toNat : Nat) : Int) := htn.symm
    _ < (((Nat.sqrt d.toNat).succ ^ 2 : Nat) : Int) := by exact_mod_cast h
    _ = (rt + 1) ^ 2 := by rw [hrt_def, isqrt_eq]; push_cast; ring
  have hbe_rt : be ≤ rt := by
    by_contra hcon
    push_neg at hcon
    have h1 : rt + 1 ≤ be := hcon
    have h2 : (rt + 1) ^ 2 ≤ be ^ 2 := pow_le_pow_left₀ (by linarith) h1 2
    nlinarith
  set s0 : Int := (rt - be) / (2 * al) with hs0_def
  have h2al : 0 < 2 * al := by linarith
  have hdiv := Int.ediv_add_emod (rt - be) (2 * al)
  have hmod0 : 0 ≤ (rt - be) % (2 * al) := Int.emod_nonneg _ (by linarith)
  have hmod1 : (rt - be) % (2 * al) < 2 * al := Int.emod_lt_of_pos _ h2al
  have hlow : 2 * al * s0 ≤ rt - be := by
    rw [hs0_def]
    linarith [hdiv, hmod0]
  have hhigh : rt - be < 2 * al * (s0 + 1) := by
    have hexp : 2 * al * (s0 + 1) = 2 * al * s0 + 2 * al := by ring
    rw [hexp, hs0_def]
    linarith [hdiv, hmod1]
  have hs0_nn : 0 ≤ s0 := Int.ediv_nonneg (by linarith) (by linarith)
  refine ⟨hs0_nn, ?_, ?_⟩
  · intro t ht hts
    have h2 : 2 * al * t + be ≤ rt := by nlinarith [hlow]
    by_cases hc : 0 ≤ 2 * al * t + be
    · have hsq : (2 * al * t + be) ^ 2 ≤ rt ^ 2 := pow_le_pow_left₀ hc h2 2
      have hsum : (2 * al * t + be) ^ 2 ≤ d := le_trans hsq hrt2
      nlinarith [hsum]
    · push_neg at hc
      have hfac : al * t + be < 0 := by nlinarith
      nlinarith [mul_nonneg ht (le_of_lt (neg_pos.mpr hfac))]
  · intro t hst
    have hst1 : s0 + 1 ≤ t := hst
    have ht0 : 0 ≤ t := by linarith
    have hstep : rt + 1 ≤ 2 * al * (s0 + 1) + be := by linarith [hhigh]
    have hpos : (0 : Int) < rt + 1 := by linarith
    have hsq : (rt + 1) ^ 2 ≤ (2 * al * (s0 + 1) + be) ^ 2 :=
      pow_le_pow_left₀ (by linarith) hstep 2
    have hq1 : ga < al * (s0 + 1) ^ 2 + be * (s0 + 1) := by nlinarith [hrt3, hsq]
    have hfac : 0 < al * (s0 + 1) + be := by
      by_contra hn
      push_neg at hn
      have hP : 0 ≤ (s0 + 1) * (-(al * (s0 + 1) + be)) :=
        mul_nonneg (by linarith) (by linarith)
      linarith [hP, hq1, hga]
    have hprod : 0 ≤ (t - (s0 + 1)) * (al * (t + (s0 + 1)) + be) := by
      have hf1 : (0 : Int) ≤ t - (s0 + 1) := by linarith
      have hf2 : (0 : Int) ≤ al * (t + (s0 + 1)) + be := by
        nlinarith [mul_nonneg (le_of_lt hal) ht0]
      exact mul_nonneg hf1 hf2
    nlinarith [hprod, hq1]

/-- Claim C2, counterexample: at the `optimal_swap` test instance (reserves
1,000,000,000 / 1,000,000,000, balances 1,000,000 / 0, 30 bps fee) the solved
swap is 500,626 and its fee-adjusted output is 498,874, so the post-swap
balances are 499,374 and 498,874.  Their cross products against the pre-swap
reserve ratio r0:r1 = 1:1 differ by 500 units of balance (500 * 10^9), far
beyond one unit of integer rounding (the balances track the post-swap
reserve ratio instead). -/
theorem c2_counterexample :
    get_swap_amount 1000000 0 1000000000 1000000000 30 = 500626 ∧
    swap_output 1000000000 1000000000
      (get_swap_amount 1000000 0 1000000000 1000000000 30) 30 = 498874 ∧
    ((1000000 : Int) - (get_swap_amount 1000000 0 1000000000 1000000000 30 : Int))
        * 1000000000
      - ((0 : Int) + (swap_output 1000000000 1000000000
          (get_swap_amount 1000000 0 1000000000 1000000000 30) 30 : Int)) * 1000000000
      = 500 * 1000000000 ∧
    ¬ ((500 : Int) * 1000000000 ≤ 1000000000 + 1000000000) := by
  refine ⟨by decide, by decide, by decide, by decide⟩

/-- Claim C2 (amended): for all reserves r0, r1 > 0 and balances with asset 0
in excess (b1*r0 < b0*r1), the solved swap amount is the floor of the exact
fee-adjusted balancing point, clamped to the source balance: it never exceeds
the source balance b0, its virtual application does not overshoot the balance
point (the balancing quadratic stays at most swapGamma), and it is the largest
amount not exceeding b0 with that property.  (The mirrored direction calls the
same function with the roles of the two assets exchanged.) -/
theorem c2_solver_root_characterization (r0 r1 b0 b1 fee : Nat)
    (h0 : 0 < r0) (h1 : 0 < r1)
    (hx : (b1 : Int) * (r0 : Int) < (b0 : Int) * (r1 : Int)) :
    get_swap_amount b0 b1 r0 r1 fee ≤ b0 ∧
    swapQuad b0 b1 r0 r1 fee ((get_swap_amount b0 b1 r0 r1 fee : Nat) : Int)
      ≤ swapGamma b0 b1 r0 r1 ∧
    ∀ t : Nat, t ≤ b0 → swapQuad b0 b1 r0 r1 fee (t : Int) ≤ swapGamma b0 b1 r0 r1 →
      t ≤ get_swap_amount b0 b1 r0 r1 fee := by
  have hal : 0 < swapAlpha b1 r1 := by
    rw [swapAlpha]
    have hr1 : (1 : Int) ≤ (r1 : Int) := by exact_mod_cast h1
    linarith [Int.natCast_nonneg b1]
  have hga : 0 < swapGamma b0 b1 r0 r1 := by
    rw [swapGamma]
    have hr0 : (1 : Int) ≤ (r0 : Int) := by exact_mod_cast h0
    have hX : 0 < (b0 : Int) * (r1 : Int) - (b1 : Int) * (r0 : Int) := by linarith
    have h10 : (0 : Int) < 10000 * (r0 : Int) := by linarith
    nlinarith [mul_pos h10 hX]
  obtain ⟨hs0nn, hlowany, hhighany⟩ :=
    quad_root_spec (swapAlpha b1 r1) (swapBeta b0 b1 r0 r1 fee) (swapGamma b0 b1 r0 r1) hal hga
  set s0 : Int := ((isqrt (swapBeta b0 b1 r0 r1 fee ^ 2
      + 4 * swapAlpha b1 r1 * swapGamma b0 b1 r0 r1).toNat : Int)
      - swapBeta b0 b1 r0 r1 fee) / (2 * swapAlpha b1 r1) with hs0def
  have hgsa : get_swap_amount b0 b1 r0 r1 fee = min s0.toNat b0 := by
    rw [get_swap_amount, ← hs0def]
  rw [hgsa]
  refine ⟨Nat.min_le_right _ _, ?_, ?_⟩
  · have hle1 : ((min s0.toNat b0 : Nat) : Int) ≤ s0 := by
      have hm : min s0.toNat b0 ≤ s0.toNat := Nat.min_le_left _ _
      calc ((min s0.toNat b0 : Nat) : Int) ≤ (s0.toNat : Int) := by exact_mod_cast hm
      _ = s0 := Int.toNat_of_nonneg hs0nn
    have hq := hlowany ((min s0.toNat b0 : Nat) : Int) (Int.natCast_nonneg _) hle1
    rw [swapQuad]
    exact hq
  · intro t htb0 hquad
    by_cases hcase : b0 ≤ s0.toNat
    · rw [min_eq_right hcase]
      exact htb0
    · push_neg at hcase
      rw [min_eq_left (le_of_lt hcase)]
      by_contra hcon
      push_neg at hcon
      have hst : s0 < (t : Int) := by
        have hc2 : (s0.toNat : Int) < (t : Int) := by exact_mod_cast hcon
        rwa [Int.toNat_of_nonneg hs0nn] at hc2
      have hgt := hhighany (t : Int) hst
      rw [swapQuad] at hquad
      linarith

/-- Witness for C2: the amended characterization instantiated at the
`optimal_swap` test fixture. -/
theorem c2_solver_root_characterization_witness :
    (0 < 1000000000 ∧ 0 < 1000000000 ∧
      ((0 : Nat) : Int) * ((1000000000 : Nat) : Int)
        < ((1000000 : Nat) : Int) * ((1000000000 : Nat) : Int)) ∧
    (get_swap_amount 1000000 0 1000000000 1000000000 30 ≤ 1000000 ∧
     swapQuad 1000000 0 1000000000 1000000000 30
       ((get_swap_amount 1000000 0 1000000000 1000000000 30 : Nat) : Int)
       ≤ swapGamma 1000000 0 1000000000 1000000000 ∧
     ∀ t : Nat, t ≤ 1000000 →
       swapQuad 1000000 0 1000000000 1000000000 30 (t : Int)
         ≤ swapGamma 1000000 0 1000000000 1000000000 →
       t ≤ get_swap_amount 1000000 0 1000000000 1000000000 30) :=
  ⟨⟨by decide, by decide, by decide⟩,
   c2_solver_root_characterization 1000000000 1000000000 1000000 0 30
     (by decide) (by decide) (by decide)⟩

/-- Claim C3: invoking a callback (OptimalSwap or ProvideLiquidity) from any
identity other than the contract's own address fails with `unauthorized`, and
invoking either from the contract's own address succeeds. -/
theorem c3_callback_self_authorization (cfg : Config) (registry : List (String × String))
    (contract_addr sender : String) (st : ChainState) (cb : CallbackMsg) :
    (sender ≠ contract_addr →
      execute cfg registry contract_addr sender st (ExecuteMsg.callback cb)
        = Except.error ContractError.unauthorized) ∧
    (sender = contract_addr →
      ∃ instrs, execute cfg registry contract_addr sender st (ExecuteMsg.callback cb)
        = Except.ok instrs) := by
  constructor
  · intro hne
    simp only [execute]
    rw [if_neg hne]
  · intro heq
    simp only [execute]
    rw [if_pos heq]
    cases cb
    · exact ⟨_, rfl⟩
    · exact ⟨_, rfl⟩

/-- Witness for C3 at the test fixture: caller "addr0000" is rejected with
`unauthorized`, the contract's own address is accepted. -/
theorem c3_callback_self_authorization_witness :
    execute testConfig [] mockContractAddr "addr0000"
      ⟨1000000000, 1000000000, 1000000, 0, 12345⟩
      (ExecuteMsg.callback CallbackMsg.optimal_swap)
      = Except.error ContractError.unauthorized ∧
    ∃ instrs, execute testConfig [] mockContractAddr mockContractAddr
      ⟨1000000000, 1000000000, 1000000, 0, 12345⟩
      (ExecuteMsg.callback CallbackMsg.optimal_swap) = Except.ok instrs :=
  ⟨(c3_callback_self_authorization testConfig [] mockContractAddr "addr0000"
      ⟨1000000000, 1000000000, 1000000, 0, 12345⟩ CallbackMsg.optimal_swap).1 (by decide),
   (c3_callback_self_authorization testConfig [] mockContractAddr mockContractAddr
      ⟨1000000000, 1000000000, 1000000, 0, 12345⟩ CallbackMsg.optimal_swap).2 rfl⟩

/-- Claim C4: a Compound invocation with a single native reward of 1,000,000
units and no explicit receiver emits exactly two follow-up instructions
addressed to the contract's own address, in order: OptimalSwap first, then
ProvideLiquidity with receiver equal to the invoking caller. -/
theorem c4_compound_dispatch :
    execute testConfig [] mockContractAddr "addr0000" ⟨0, 0, 0, 0, 12345⟩
      (ExecuteMsg.compound [(AssetInfo.native_token "uluna", 1000000)] none)
      = Except.ok [Instr.callback mockContractAddr CallbackMsg.optimal_swap,
          Instr.callback mockContractAddr (CallbackMsg.provide_liquidity "addr0000")] := by
  decide

/-- Claim C5: with balanced holdings of 1,000,000 units of each pool asset,
1 % slippage and receiver "sender", the ProvideLiquidity step emits exactly
two instructions in order: a spend allowance of exactly 1,000,000 token units
to the pool, then the deposit to the pool with both amounts, the native leg
attached as funds, the 1 % slippage bound and "sender" as LP recipient. -/
theorem c5_provide_liquidity_scenario :
    execute testConfig [] mockContractAddr mockContractAddr
      ⟨1000000000, 1000000000, 1000000, 1000000, 12345⟩
      (ExecuteMsg.callback (CallbackMsg.provide_liquidity "sender"))
      = Except.ok [Instr.increase_allowance "token" "pair_contract" 1000000 12346,
          Instr.provide_liquidity_msg "pair_contract" 1000000 1000000 100 "sender"
            [("uluna", 1000000)]] := by
  decide

/-- Claim C6: instantiation with the two pair-proxy entries of the
`proper_initialization` test yields a registry holding exactly those two
entries keyed by asset identity, and the registry contents are identical for
both input orders. -/
theorem c6_instantiate_registry_order_insensitive :
    instantiate_pair_proxies [(AssetInfo.token "token0001", "pair0001"),
        (AssetInfo.native_token "ibc/token", "pair0002")]
      = [("ibc/token", "pair0002"), ("token0001", "pair0001")] ∧
    instantiate_pair_proxies [(AssetInfo.native_token "ibc/token", "pair0002"),
        (AssetInfo.token "token0001", "pair0001")]
      = [("ibc/token", "pair0002"), ("token0001", "pair0001")] := by
  constructor
  · decide
  · decide

/-- Reward conversion of a basket whose entries all have zero amount produces
no instruction. -/
theorem convert_rewards_all_zero (cfg : Config) (registry : List (String × String)) :
    ∀ rewards : List (AssetInfo × Nat), (∀ p ∈ rewards, p.2 = 0) →
      convert_rewards cfg registry rewards = Except.ok []
  | [], _ => rfl
  | (info, amt) :: rest, hz => by
    have hz0 : amt = 0 := hz (info, amt) (List.mem_cons_self _ _)
    have ih := convert_rewards_all_zero cfg registry rest
      (fun q hq => hz q (List.mem_cons_of_mem _ hq))
    rw [convert_rewards, ih, hz0]
    simp

/-- Claim C7: for every reward basket whose entries all have zero amount, the
Compound operation succeeds and produces no swap instruction and no deposit
instruction (only the two self-addressed follow-up callbacks). -/
theorem c7_compound_zero_rewards_noop (cfg : Config) (registry : List (String × String))
    (contract_addr sender : String) (st : ChainState)
    (rewards : List (AssetInfo × Nat)) (toAddr : Option String)
    (hz : ∀ p ∈ rewards, p.2 = 0) :
    execute cfg registry contract_addr sender st (ExecuteMsg.compound rewards toAddr)
      = Except.ok [Instr.callback contract_addr CallbackMsg.optimal_swap,
          Instr.callback contract_addr (CallbackMsg.provide_liquidity (toAddr.getD sender))] ∧
    ∀ i ∈ [Instr.callback contract_addr CallbackMsg.optimal_swap,
           Instr.callback contract_addr (CallbackMsg.provide_liquidity (toAddr.getD sender))],
      i.is_swap_or_deposit = false := by
  constructor
  · show compound cfg registry contract_addr sender rewards toAddr = _
    rw [compound, convert_rewards_all_zero cfg registry rewards hz]
    rfl
  · intro i hi
    rcases List.mem_cons.mp hi with rfl | hi2
    · rfl
    · rcases List.mem_cons.mp hi2 with rfl | hi3
      · rfl
      · cases hi3

/-- Witness for C7: the all-zero single-entry basket of the compound test. -/
theorem c7_compound_zero_rewards_noop_witness :
    (∀ p ∈ ([(AssetInfo.native_token "uluna", 0)] : List (AssetInfo × Nat)), p.2 = 0) ∧
    (execute testConfig [] mockContractAddr "addr0000" ⟨0, 0, 0, 0, 12345⟩
      (ExecuteMsg.compound [(AssetInfo.native_token "uluna", 0)] none)
      = Except.ok [Instr.callback mockContractAddr CallbackMsg.optimal_swap,
          Instr.callback mockContractAddr (CallbackMsg.provide_liquidity "addr0000")] ∧
     ∀ i ∈ [Instr.callback mockContractAddr CallbackMsg.optimal_swap,
            Instr.callback mockContractAddr (CallbackMsg.provide_liquidity "addr0000")],
       i.is_swap_or_deposit = false) :=
  ⟨by decide,
   c7_compound_zero_rewards_noop testConfig [] mockContractAddr "addr0000" ⟨0, 0, 0, 0, 12345⟩
     [(AssetInfo.native_token "uluna", 0)] none (by decide)⟩

/-- Claim C8, counterexample: with reserves (100, 100), balances
(1,000,000,000, 0) and a 30 bps fee, the solver swaps 3,032,773 units; re-run
on the virtually applied post-swap state it solves a further swap of
2,481,033 units — not zero, and far beyond integer-rounding tolerance. -/
theorem c8_counterexample :
    rerun_optimal_swap 100 100 1000000000 0 30 = some (SwapDir.zeroToOne, 2481033) ∧
    ¬ (2481033 ≤ 1) := by
  constructor
  · decide
  · decide

/-- Claim C8 (amended): on the `optimal_swap` test scenario (reserves
1,000,000,000 / 1,000,000,000, balances 1,000,000 / 0, 30 bps fee) the solver
is idempotent: re-running it on the virtually applied post-swap balances and
reserves yields no further swap.  This does not hold for arbitrary inputs
(see the counterexample), where the integer rounding of the output can leave
a residual imbalance larger than one swap unit. -/
theorem c8_idempotent_on_test_scenario :
    rerun_optimal_swap 1000000000 1000000000 1000000 0 30 = none := by
  decide

/-- Claim C9: the spend allowance granted by the ProvideLiquidity step always
expires at the block height immediately following the current block. -/
theorem c9_allowance_expires_next_block (cfg : Config) (st : ChainState) (receiver : String) :
    ∃ rest, provide_liquidity_step cfg st receiver
      = Instr.increase_allowance cfg.token_contract cfg.pair_contract
          st.balance_token (st.height + 1) :: rest :=
  ⟨_, rfl⟩

/-- The pair key of the mock querier is symmetric in the two asset
identities, because the two byte keys are sorted before concatenation. -/
theorem pair_key_comm (a b : AssetInfo) : pair_key a b = pair_key b a := by
  rw [pair_key, pair_key]
  rcases lt_trichotomy a.as_bytes b.as_bytes with h | h | h
  · rw [if_neg (asymm h), if_pos h]
  · rw [h]
  · rw [if_pos h, if_neg (asymm h)]

/-- Claim C10: the mock querier's pair lookup is order-insensitive: after
`set_pair` under asset identities (a, b), a `Pair` query for (b, a) returns
the stored pair info, because `pair_key` sorts the two identities by byte
order before concatenating them. -/
theorem c10_pair_lookup_order_insensitive (m : PairTable) (a b : AssetInfo) (p : PairInfo) :
    get_pair (set_pair m a b p) b a = some p := by
  show (if pair_key b a = pair_key a b then some p else m (pair_key b a)) = some p
  rw [if_pos (pair_key_comm b a)]
